import Mathlib

/-!
Verification of the SceneManager transform-and-material binding pipeline
(`src/SceneManager.cpp`).

The embedding models:
  * 4x4 model-matrix composition (`glm` scale / rotate / translate and the
    product built in `SceneManager::SetTransformations`);
  * the texture registry (`CreateGLTexture`, `BindGLTextures`,
    `DestroyGLTextures`, `FindTextureID`, `FindTextureSlot`);
  * the material table (`FindMaterial`, `SetShaderMaterial`,
    `DefineObjectMaterials`);
  * the shader-uniform setters (`SetTransformations`, `SetShaderColor`,
    `SetShaderTexture`, `SetTextureUVScale`).

Scalars are modelled as rationals.  The `glm` rotation matrices are
parametrised directly by the cosine and sine of the (degree-converted)
rotation angle, since the composition claims are independent of the
transcendental evaluation of trigonometric functions on floats.  External
side effects (OpenGL calls, uniform pushes, slot-array writes) are recorded
as an explicit event trace; `glGenTextures` is modelled as returning a fresh
handle from an increasing counter.
-/

namespace SceneMgr

/-- A 3-component vector of rationals (models `glm::vec3`). -/
structure Vec3 where
  x : ℚ
  y : ℚ
  z : ℚ
deriving DecidableEq

/-- A 4-component homogeneous column vector (models `glm::vec4`). -/
structure Vec4 where
  x : ℚ
  y : ℚ
  z : ℚ
  w : ℚ
deriving DecidableEq

/-- A 4x4 matrix (models `glm::mat4`); entry `aij` is row `i`, column `j`,
acting on column vectors. -/
structure Mat4 where
  a00 : ℚ
  a01 : ℚ
  a02 : ℚ
  a03 : ℚ
  a10 : ℚ
  a11 : ℚ
  a12 : ℚ
  a13 : ℚ
  a20 : ℚ
  a21 : ℚ
  a22 : ℚ
  a23 : ℚ
  a30 : ℚ
  a31 : ℚ
  a32 : ℚ
  a33 : ℚ
deriving DecidableEq

/-- Matrix product (models `operator*` on `glm::mat4`). -/
def mat4Mul (A B : Mat4) : Mat4 where
  a00 := A.a00 * B.a00 + A.a01 * B.a10 + A.a02 * B.a20 + A.a03 * B.a30
  a01 := A.a00 * B.a01 + A.a01 * B.a11 + A.a02 * B.a21 + A.a03 * B.a31
  a02 := A.a00 * B.a02 + A.a01 * B.a12 + A.a02 * B.a22 + A.a03 * B.a32
  a03 := A.a00 * B.a03 + A.a01 * B.a13 + A.a02 * B.a23 + A.a03 * B.a33
  a10 := A.a10 * B.a00 + A.a11 * B.a10 + A.a12 * B.a20 + A.a13 * B.a30
  a11 := A.a10 * B.a01 + A.a11 * B.a11 + A.a12 * B.a21 + A.a13 * B.a31
  a12 := A.a10 * B.a02 + A.a11 * B.a12 + A.a12 * B.a22 + A.a13 * B.a32
  a13 := A.a10 * B.a03 + A.a11 * B.a13 + A.a12 * B.a23 + A.a13 * B.a33
  a20 := A.a20 * B.a00 + A.a21 * B.a10 + A.a22 * B.a20 + A.a23 * B.a30
  a21 := A.a20 * B.a01 + A.a21 * B.a11 + A.a22 * B.a21 + A.a23 * B.a31
  a22 := A.a20 * B.a02 + A.a21 * B.a12 + A.a22 * B.a22 + A.a23 * B.a32
  a23 := A.a20 * B.a03 + A.a21 * B.a13 + A.a22 * B.a23 + A.a23 * B.a33
  a30 := A.a30 * B.a00 + A.a31 * B.a10 + A.a32 * B.a20 + A.a33 * B.a30
  a31 := A.a30 * B.a01 + A.a31 * B.a11 + A.a32 * B.a21 + A.a33 * B.a31
  a32 := A.a30 * B.a02 + A.a31 * B.a12 + A.a32 * B.a22 + A.a33 * B.a32
  a33 := A.a30 * B.a03 + A.a31 * B.a13 + A.a32 * B.a23 + A.a33 * B.a33

/-- Matrix applied to a column vector. -/
def mat4MulVec (A : Mat4) (v : Vec4) : Vec4 where
  x := A.a00 * v.x + A.a01 * v.y + A.a02 * v.z + A.a03 * v.w
  y := A.a10 * v.x + A.a11 * v.y + A.a12 * v.z + A.a13 * v.w
  z := A.a20 * v.x + A.a21 * v.y + A.a22 * v.z + A.a23 * v.w
  w := A.a30 * v.x + A.a31 * v.y + A.a32 * v.z + A.a33 * v.w

/-- Scale matrix (models `glm::scale(scaleXYZ)`). -/
def glmScale (s : Vec3) : Mat4 where
  a00 := s.x
  a01 := 0
  a02 := 0
  a03 := 0
  a10 := 0
  a11 := s.y
  a12 := 0
  a13 := 0
  a20 := 0
  a21 := 0
  a22 := s.z
  a23 := 0
  a30 := 0
  a31 := 0
  a32 := 0
  a33 := 1

/-- Rotation about the X axis (models `glm::rotate(angle, vec3(1,0,0))`),
parametrised by the cosine `c` and sine `s` of the angle. -/
def glmRotateX (c s : ℚ) : Mat4 where
  a00 := 1
  a01 := 0
  a02 := 0
  a03 := 0
  a10 := 0
  a11 := c
  a12 := -s
  a13 := 0
  a20 := 0
  a21 := s
  a22 := c
  a23 := 0
  a30 := 0
  a31 := 0
  a32 := 0
  a33 := 1

/-- Rotation about the Y axis (models `glm::rotate(angle, vec3(0,1,0))`). -/
def glmRotateY (c s : ℚ) : Mat4 where
  a00 := c
  a01 := 0
  a02 := s
  a03 := 0
  a10 := 0
  a11 := 1
  a12 := 0
  a13 := 0
  a20 := -s
  a21 := 0
  a22 := c
  a23 := 0
  a30 := 0
  a31 := 0
  a32 := 0
  a33 := 1

/-- Rotation about the Z axis (models `glm::rotate(angle, vec3(0,0,1))`). -/
def glmRotateZ (c s : ℚ) : Mat4 where
  a00 := c
  a01 := -s
  a02 := 0
  a03 := 0
  a10 := s
  a11 := c
  a12 := 0
  a13 := 0
  a20 := 0
  a21 := 0
  a22 := 1
  a23 := 0
  a30 := 0
  a31 := 0
  a32 := 0
  a33 := 1

/-- Translation matrix (models `glm::translate(positionXYZ)`). -/
def glmTranslate (t : Vec3) : Mat4 where
  a00 := 1
  a01 := 0
  a02 := 0
  a03 := t.x
  a10 := 0
  a11 := 1
  a12 := 0
  a13 := t.y
  a20 := 0
  a21 := 0
  a22 := 1
  a23 := t.z
  a30 := 0
  a31 := 0
  a32 := 0
  a33 := 1

/-- The model matrix composed by `SceneManager::SetTransformations`
(line 282): `translation * rotationX * rotationY * rotationZ * scale`,
with the left-associated grouping of the C++ expression. -/
def modelMatrix (scaleXYZ : Vec3) (cx sx cy sy cz sz : ℚ) (positionXYZ : Vec3) : Mat4 :=
  mat4Mul
    (mat4Mul
      (mat4Mul
        (mat4Mul (glmTranslate positionXYZ) (glmRotateX cx sx))
        (glmRotateY cy sy))
      (glmRotateZ cz sz))
    (glmScale scaleXYZ)

/-- Spec-side pointwise scaling of a column vector. -/
def scaleApp (s : Vec3) (v : Vec4) : Vec4 :=
  ⟨s.x * v.x, s.y * v.y, s.z * v.z, v.w⟩

/-- Spec-side rotation of a column vector about the X axis. -/
def rotXApp (c s : ℚ) (v : Vec4) : Vec4 :=
  ⟨v.x, c * v.y - s * v.z, s * v.y + c * v.z, v.w⟩

/-- Spec-side rotation of a column vector about the Y axis. -/
def rotYApp (c s : ℚ) (v : Vec4) : Vec4 :=
  ⟨c * v.x + s * v.z, v.y, -s * v.x + c * v.z, v.w⟩

/-- Spec-side rotation of a column vector about the Z axis. -/
def rotZApp (c s : ℚ) (v : Vec4) : Vec4 :=
  ⟨c * v.x - s * v.y, s * v.x + c * v.y, v.z, v.w⟩

/-- Spec-side translation of a homogeneous column vector. -/
def translateApp (t : Vec3) (v : Vec4) : Vec4 :=
  ⟨v.x + t.x * v.w, v.y + t.y * v.w, v.z + t.z * v.w, v.w⟩

/-- One entry of the texture registry array `m_textureIDs`
(tag string plus GPU handle, as used throughout `SceneManager.cpp`). -/
structure TextureEntry where
  tag : String
  ID : Int
deriving DecidableEq

/-- A material preset (`OBJECT_MATERIAL`): five lighting fields plus the tag. -/
structure ObjectMaterial where
  ambientColor : Vec3
  ambientStrength : ℚ
  diffuseColor : Vec3
  specularColor : Vec3
  shininess : ℚ
  tag : String
deriving DecidableEq

/-- A decoded image as returned by `stbi_load`: dimensions and channel count
(the pixel buffer itself is irrelevant to every claim). -/
structure ImageData where
  width : Int
  height : Int
  colorChannels : Int
deriving DecidableEq

/-- A value pushed through the shader-uniform interface. -/
inductive UniformValue where
  | intVal : Int → UniformValue
  | floatVal : ℚ → UniformValue
  | vec2Val : ℚ → ℚ → UniformValue
  | vec3Val : Vec3 → UniformValue
  | vec4Val : ℚ → ℚ → ℚ → ℚ → UniformValue
  | mat4Val : Mat4 → UniformValue
  | sampler2DVal : Int → UniformValue
deriving DecidableEq

/-- An observable side effect of a SceneManager operation: an OpenGL call,
a write into the fixed 16-entry texture-slot array (recorded with its raw
index, so out-of-bounds writes are visible), or a shader-uniform push.
The `glTexParameteri` configuration calls are omitted; no claim concerns
them. -/
inductive Event where
  | glGenTextures : Int → Event
  | glBindTexture : Int → Event
  | glTexImage2D : Int → Event
  | glGenerateMipmap : Event
  | glActiveTexture : ℕ → Event
  | glDeleteTextures : Int → Event
  | slotWrite : ℕ → TextureEntry → Event
  | uniform : String → UniformValue → Event
deriving DecidableEq

/-- The mutable state of a `SceneManager` object together with the GL handle
allocator: `textures` holds the first `m_loadedTextures` entries of the
fixed array `m_textureIDs` (in registration order), `materials` models
`m_objectMaterials`, `shaderPresent` records whether `m_pShaderManager` is
non-null, and `glNextID` is the next handle `glGenTextures` will return. -/
structure SMState where
  textures : List TextureEntry
  materials : List ObjectMaterial
  shaderPresent : Bool
  glNextID : Int
deriving DecidableEq

/-- Capacity of the fixed texture-slot array `m_textureIDs`: the constructor
initialises exactly 16 entries (loop bound at line 41); valid indices are
`0..15`. -/
def texCapacity : ℕ := 16

/-- The constructor `SceneManager::SceneManager`: empty registry and material
table, shader pointer as given. -/
def sceneInit (shaderPresent : Bool) : SMState :=
  { textures := [], materials := [], shaderPresent := shaderPresent, glNextID := 1 }

/-- `SceneManager::CreateGLTexture` (lines 69-133), with the decode outcome of
`stbi_load` for the given file passed in as `decoded`.  On decode failure it
returns false with no effects.  On success it allocates a handle, uploads for
3- or 4-channel images and registers `{tag, handle}` at the raw index
`m_loadedTextures` (recorded as a `slotWrite` event; the C++ performs this
write without any capacity check).  For an unsupported channel count it
returns false after the handle was already generated and bound, registering
nothing. -/
def createGLTexture (decoded : Option ImageData) (tag : String) (st : SMState) :
    Bool × SMState × List Event :=
  match decoded with
  | none => (false, st, [])
  | some img =>
    let textureID := st.glNextID
    let st1 : SMState := { st with glNextID := st.glNextID + 1 }
    if img.colorChannels = 3 ∨ img.colorChannels = 4 then
      (true,
       { st1 with textures := st1.textures ++ [⟨tag, textureID⟩] },
       [Event.glGenTextures textureID, Event.glBindTexture textureID,
        Event.glTexImage2D img.colorChannels, Event.glGenerateMipmap,
        Event.glBindTexture 0,
        Event.slotWrite st.textures.length ⟨tag, textureID⟩])
    else
      (false, st1,
       [Event.glGenTextures textureID, Event.glBindTexture textureID])

/-- Loop body of `SceneManager::BindGLTextures`: for the entry at loop index
`i`, activate texture unit `i` and bind the stored handle. -/
def bindGLTexturesAux (i : ℕ) : List TextureEntry → List Event
  | [] => []
  | e :: rest =>
    Event.glActiveTexture i :: Event.glBindTexture e.ID :: bindGLTexturesAux (i + 1) rest

/-- `SceneManager::BindGLTextures` (lines 141-149). -/
def bindGLTextures (st : SMState) : List Event :=
  bindGLTexturesAux 0 st.textures

/-- Loop of `SceneManager::DestroyGLTextures` (lines 157-163): for every
registered entry the code calls `glGenTextures(1, &m_textureIDs[i].ID)`,
which allocates a fresh handle and stores it over the old one.  Returns the
updated entries, the updated allocator counter, and the emitted GL calls. -/
def destroyGLTexturesAux (nextID : Int) :
    List TextureEntry → List TextureEntry × Int × List Event
  | [] => ([], nextID, [])
  | e :: rest =>
    let r := destroyGLTexturesAux (nextID + 1) rest
    ({ e with ID := nextID } :: r.1, r.2.1, Event.glGenTextures nextID :: r.2.2)

/-- `SceneManager::DestroyGLTextures` (lines 157-163). -/
def destroyGLTextures (st : SMState) : SMState × List Event :=
  let r := destroyGLTexturesAux st.glNextID st.textures
  ({ st with textures := r.1, glNextID := r.2.1 }, r.2.2)

/-- Scan loop of `SceneManager::FindTextureID` (lines 171-189): first match
wins, `-1` on miss. -/
def findTextureIDAux (tag : String) : List TextureEntry → Int
  | [] => -1
  | e :: rest => if e.tag = tag then e.ID else findTextureIDAux tag rest

/-- `SceneManager::FindTextureID`. -/
def findTextureID (st : SMState) (tag : String) : Int :=
  findTextureIDAux tag st.textures

/-- Scan loop of `SceneManager::FindTextureSlot` (lines 197-215): returns the
index of the first match, `-1` on miss. -/
def findTextureSlotAux (tag : String) : ℕ → List TextureEntry → Int
  | _, [] => -1
  | i, e :: rest => if e.tag = tag then (i : Int) else findTextureSlotAux tag (i + 1) rest

/-- `SceneManager::FindTextureSlot`. -/
def findTextureSlot (st : SMState) (tag : String) : Int :=
  findTextureSlotAux tag 0 st.textures

/-- Scan loop of `SceneManager::FindMaterial` (lines 232-247): on the first
tag match the five lighting fields are copied into the caller's variable
(`material.tag` is never assigned); with no match the caller's variable is
left untouched. -/
def findMaterialAux (tag : String) (materialIn : ObjectMaterial) :
    List ObjectMaterial → ObjectMaterial
  | [] => materialIn
  | p :: rest =>
    if p.tag = tag then
      { materialIn with
        ambientColor := p.ambientColor
        ambientStrength := p.ambientStrength
        diffuseColor := p.diffuseColor
        specularColor := p.specularColor
        shininess := p.shininess }
    else findMaterialAux tag materialIn rest

/-- `SceneManager::FindMaterial` (lines 223-250), modelled exactly as written:
it returns false when the table is empty, and otherwise runs the scan loop
and then executes the literal `return(true)` at line 249 regardless of
whether the scan matched.  `materialIn` is the caller's (possibly
uninitialised) `OBJECT_MATERIAL` out-parameter. -/
def findMaterial (st : SMState) (tag : String) (materialIn : ObjectMaterial) :
    Bool × ObjectMaterial :=
  if st.materials.length = 0 then (false, materialIn)
  else (true, findMaterialAux tag materialIn st.materials)

/-- `SceneManager::SetTransformations` (lines 258-288): composes
`translation * rotationX * rotationY * rotationZ * scale` and pushes it under
the uniform name `"model"` when the shader manager is non-null; with a null
shader manager nothing is pushed. -/
def setTransformations (st : SMState) (scaleXYZ : Vec3) (cx sx cy sy cz sz : ℚ)
    (positionXYZ : Vec3) : List Event :=
  let modelView := modelMatrix scaleXYZ cx sx cy sy cz sz positionXYZ
  if st.shaderPresent then
    [Event.uniform "model" (UniformValue.mat4Val modelView)]
  else []

/-- `SceneManager::SetShaderColor` (lines 296-315): disables texture sampling
(`bUseTexture := false`, an int uniform set from a C++ bool) and pushes the
RGBA color, guarded by the null check on the shader manager. -/
def setShaderColor (st : SMState) (r g b a : ℚ) : List Event :=
  if st.shaderPresent then
    [Event.uniform "bUseTexture" (UniformValue.intVal 0),
     Event.uniform "objectColor" (UniformValue.vec4Val r g b a)]
  else []

/-- `SceneManager::SetShaderTexture` (lines 323-334): when the shader manager
is non-null, enables texture sampling and pushes the result of
`FindTextureSlot` (which is `-1` on a miss) as the sampler uniform. -/
def setShaderTexture (st : SMState) (textureTag : String) : List Event :=
  if st.shaderPresent then
    [Event.uniform "bUseTexture" (UniformValue.intVal 1),
     Event.uniform "objectTexture" (UniformValue.sampler2DVal (findTextureSlot st textureTag))]
  else []

/-- `SceneManager::SetTextureUVScale` (lines 342-348). -/
def setTextureUVScale (st : SMState) (u v : ℚ) : List Event :=
  if st.shaderPresent then
    [Event.uniform "UVscale" (UniformValue.vec2Val u v)]
  else []

/-- `SceneManager::SetShaderMaterial` (lines 356-374): when the material table
is non-empty it calls `FindMaterial` on a local `OBJECT_MATERIAL` variable
(`materialLocal` models that local's initial, indeterminate contents) and, on
a true return, pushes the five material uniforms from that local.  Note the
source performs no null check on the shader manager here. -/
def setShaderMaterial (st : SMState) (materialTag : String)
    (materialLocal : ObjectMaterial) : List Event :=
  if st.materials.length > 0 then
    let r := findMaterial st materialTag materialLocal
    if r.1 = true then
      [Event.uniform "material.ambientColor" (UniformValue.vec3Val r.2.ambientColor),
       Event.uniform "material.ambientStrength" (UniformValue.floatVal r.2.ambientStrength),
       Event.uniform "material.diffuseColor" (UniformValue.vec3Val r.2.diffuseColor),
       Event.uniform "material.specularColor" (UniformValue.vec3Val r.2.specularColor),
       Event.uniform "material.shininess" (UniformValue.floatVal r.2.shininess)]
    else []
  else []

/-- The four material presets appended by
`SceneManager::DefineObjectMaterials` (lines 398-442), in push order. -/
def paperMaterial : ObjectMaterial :=
  { ambientColor := ⟨8/10, 8/10, 8/10⟩, ambientStrength := 2/10,
    diffuseColor := ⟨9/10, 9/10, 9/10⟩, specularColor := ⟨5/100, 5/100, 5/100⟩,
    shininess := 10, tag := "Paper" }

/-- Wood preset from `DefineObjectMaterials`. -/
def woodMaterial : ObjectMaterial :=
  { ambientColor := ⟨2/10, 1/10, 1/10⟩, ambientStrength := 3/10,
    diffuseColor := ⟨6/10, 4/10, 2/10⟩, specularColor := ⟨1/10, 1/10, 1/10⟩,
    shininess := 25, tag := "Wood" }

/-- Plastic preset from `DefineObjectMaterials`. -/
def plasticMaterial : ObjectMaterial :=
  { ambientColor := ⟨1/10, 1/10, 1/10⟩, ambientStrength := 1/10,
    diffuseColor := ⟨7/10, 7/10, 7/10⟩, specularColor := ⟨6/10, 6/10, 6/10⟩,
    shininess := 30, tag := "Plastic" }

/-- Metal preset from `DefineObjectMaterials`. -/
def metalMaterial : ObjectMaterial :=
  { ambientColor := ⟨1/10, 1/10, 1/10⟩, ambientStrength := 1/10,
    diffuseColor := ⟨7/10, 7/10, 7/10⟩, specularColor := ⟨1, 1, 1⟩,
    shininess := 80, tag := "Metal" }

/-- `SceneManager::DefineObjectMaterials`: appends the four presets. -/
def defineObjectMaterials (st : SMState) : SMState :=
  { st with materials :=
      st.materials ++ [paperMaterial, woodMaterial, plasticMaterial, metalMaterial] }

/-- GL texture-unit bookkeeping used to interpret a call trace: the currently
active unit and, per unit, the handle bound to its 2D target. -/
structure GLTextureUnits where
  active : ℕ
  bound : ℕ → Option Int

/-- OpenGL semantics of one call: `glActiveTexture` selects a unit,
`glBindTexture` binds to the active unit's 2D target; other events leave the
unit state unchanged. -/
def applyGL (g : GLTextureUnits) : Event → GLTextureUnits
  | Event.glActiveTexture u => { g with active := u }
  | Event.glBindTexture id =>
      { g with bound := fun u => if u = g.active then some id else g.bound u }
  | _ => g

/-- Run a call trace through the GL texture-unit semantics. -/
def runGL (g : GLTextureUnits) (evs : List Event) : GLTextureUnits :=
  evs.foldl applyGL g

/-- Concrete state with two registered textures, used as a witness fixture. -/
def twoTexState : SMState :=
  { textures := [⟨"Wood", 7⟩, ⟨"Metal", 8⟩], materials := [],
    shaderPresent := true, glNextID := 9 }

/-- Fresh texture-unit state: unit 0 active, nothing bound. -/
def glInit : GLTextureUnits :=
  { active := 0, bound := fun _ => none }

/-- Concrete state whose material table is exactly the one built by
`DefineObjectMaterials` (Paper, Wood, Plastic, Metal). -/
def materialState : SMState :=
  defineObjectMaterials (sceneInit true)

/-- Concrete state with the texture-slot array completely full: 16 registered
textures, so the next registration index is 16, one past the last valid
slot. -/
def fullState : SMState :=
  { textures := List.replicate 16 ⟨"x", 1⟩, materials := [],
    shaderPresent := true, glNextID := 17 }

/-- Concrete state with a single registered texture (tag `"Wood"`, GPU
handle 7), used for the teardown analysis. -/
def oneTexState : SMState :=
  { textures := [⟨"Wood", 7⟩], materials := [], shaderPresent := true,
    glNextID := 50 }

theorem mat4MulVec_mul (A B : Mat4) (v : Vec4) :
    mat4MulVec (mat4Mul A B) v = mat4MulVec A (mat4MulVec B v) := by
  cases A
  cases B
  cases v
  simp only [mat4Mul, mat4MulVec, Vec4.mk.injEq]
  refine ⟨by ring, by ring, by ring, by ring⟩

theorem glmScale_apply (s : Vec3) (v : Vec4) :
    mat4MulVec (glmScale s) v = scaleApp s v := by
  cases s
  cases v
  simp only [glmScale, mat4MulVec, scaleApp, Vec4.mk.injEq]
  refine ⟨by ring, by ring, by ring, by ring⟩

theorem glmRotateX_apply (c s : ℚ) (v : Vec4) :
    mat4MulVec (glmRotateX c s) v = rotXApp c s v := by
  cases v
  simp only [glmRotateX, mat4MulVec, rotXApp, Vec4.mk.injEq]
  refine ⟨by ring, by ring, by ring, by ring⟩

theorem glmRotateY_apply (c s : ℚ) (v : Vec4) :
    mat4MulVec (glmRotateY c s) v = rotYApp c s v := by
  cases v
  simp only [glmRotateY, mat4MulVec, rotYApp, Vec4.mk.injEq]
  refine ⟨by ring, by ring, by ring, by ring⟩

theorem glmRotateZ_apply (c s : ℚ) (v : Vec4) :
    mat4MulVec (glmRotateZ c s) v = rotZApp c s v := by
  cases v
  simp only [glmRotateZ, mat4MulVec, rotZApp, Vec4.mk.injEq]
  refine ⟨by ring, by ring, by ring, by ring⟩

theorem glmTranslate_apply (t : Vec3) (v : Vec4) :
    mat4MulVec (glmTranslate t) v = translateApp t v := by
  cases t
  cases v
  simp only [glmTranslate, mat4MulVec, translateApp, Vec4.mk.injEq]
  refine ⟨by ring, by ring, by ring, by ring⟩

theorem findTextureIDAux_skip (tag : String) (l m : List TextureEntry)
    (h : ∀ e ∈ l, e.tag ≠ tag) :
    findTextureIDAux tag (l ++ m) = findTextureIDAux tag m := by
  induction l with
  | nil => rfl
  | cons e rest ih =>
    simp only [List.cons_append, findTextureIDAux]
    rw [if_neg (h e (List.mem_cons_self e rest))]
    exact ih fun x hx => h x (List.mem_cons_of_mem e hx)

theorem findTextureIDAux_miss (tag : String) (l : List TextureEntry)
    (h : ∀ e ∈ l, e.tag ≠ tag) :
    findTextureIDAux tag l = -1 := by
  have := findTextureIDAux_skip tag l [] h
  simpa using this

theorem findTextureIDAux_hit (tag : String) (id : Int) (m : List TextureEntry) :
    findTextureIDAux tag (⟨tag, id⟩ :: m) = id := by
  simp [findTextureIDAux]

theorem findTextureSlotAux_skip (tag : String) (l m : List TextureEntry) (i : ℕ)
    (h : ∀ e ∈ l, e.tag ≠ tag) :
    findTextureSlotAux tag i (l ++ m) = findTextureSlotAux tag (i + l.length) m := by
  induction l generalizing i with
  | nil => simp
  | cons e rest ih =>
    simp only [List.cons_append, findTextureSlotAux, List.append_eq]
    rw [if_neg (h e (List.mem_cons_self e rest))]
    rw [ih (i + 1) fun x hx => h x (List.mem_cons_of_mem e hx)]
    congr 1
    simp only [List.length_cons]
    omega

theorem findTextureSlotAux_miss (tag : String) (l : List TextureEntry) (i : ℕ)
    (h : ∀ e ∈ l, e.tag ≠ tag) :
    findTextureSlotAux tag i l = -1 := by
  have := findTextureSlotAux_skip tag l [] i h
  simpa using this

theorem findTextureSlotAux_hit (tag : String) (id : Int) (m : List TextureEntry) (i : ℕ) :
    findTextureSlotAux tag i (⟨tag, id⟩ :: m) = (i : Int) := by
  simp [findTextureSlotAux]

theorem createGLTexture_success_spec (img : ImageData) (tag : String) (st : SMState)
    (h : img.colorChannels = 3 ∨ img.colorChannels = 4) :
    (createGLTexture (some img) tag st).1 = true ∧
    (createGLTexture (some img) tag st).2.1.textures =
      st.textures ++ [⟨tag, st.glNextID⟩] := by
  rcases h with h | h <;> simp [createGLTexture, h]

theorem createGLTexture_fail_spec (d : Option ImageData) (tag : String) (st : SMState)
    (h : d = none ∨ ∀ img, d = some img →
      img.colorChannels ≠ 3 ∧ img.colorChannels ≠ 4) :
    (createGLTexture d tag st).1 = false ∧
    (createGLTexture d tag st).2.1.textures = st.textures := by
  rcases h with h | h
  · subst h
    simp [createGLTexture]
  · cases d with
    | none => simp [createGLTexture]
    | some img =>
      obtain ⟨h3, h4⟩ := h img rfl
      simp [createGLTexture, h3, h4]

/-- C6: for a tag with no entry in the registry, `FindTextureID` and
`FindTextureSlot` both return the sentinel `-1`; registering a fresh tag via
a successful `CreateGLTexture` and looking it up returns exactly the handle
stored at registration and its registration index; and for a registry whose
first entry with the tag sits after a non-matching prefix, lookup returns
that first matching entry's handle and index (first match wins). -/
theorem texture_lookup_roundtrip (st st2 : SMState) (tag : String) (img : ImageData)
    (l1 l2 : List TextureEntry) (id : Int)
    (hch : img.colorChannels = 3 ∨ img.colorChannels = 4)
    (hfresh : ∀ e ∈ st.textures, e.tag ≠ tag)
    (hdecomp : st2.textures = l1 ++ ⟨tag, id⟩ :: l2)
    (hfirst : ∀ e ∈ l1, e.tag ≠ tag) :
    findTextureID st tag = -1 ∧
    findTextureSlot st tag = -1 ∧
    (createGLTexture (some img) tag st).1 = true ∧
    findTextureID (createGLTexture (some img) tag st).2.1 tag = st.glNextID ∧
    findTextureSlot (createGLTexture (some img) tag st).2.1 tag =
      (st.textures.length : Int) ∧
    findTextureID st2 tag = id ∧
    findTextureSlot st2 tag = (l1.length : Int) := by
  obtain ⟨hok, htex⟩ := createGLTexture_success_spec img tag st hch
  refine ⟨findTextureIDAux_miss tag st.textures hfresh,
    findTextureSlotAux_miss tag st.textures 0 hfresh, hok, ?_, ?_, ?_, ?_⟩
  · rw [findTextureID, htex, findTextureIDAux_skip tag st.textures _ hfresh,
      findTextureIDAux_hit]
  · rw [findTextureSlot, htex, findTextureSlotAux_skip tag st.textures _ 0 hfresh,
      findTextureSlotAux_hit]
    simp
  · rw [findTextureID, hdecomp, findTextureIDAux_skip tag l1 _ hfirst,
      findTextureIDAux_hit]
  · rw [findTextureSlot, hdecomp, findTextureSlotAux_skip tag l1 _ 0 hfirst,
      findTextureSlotAux_hit]
    simp

/-- Witness for C6 at a concrete registry. -/
theorem texture_lookup_roundtrip_witness :
    findTextureID (sceneInit true) "Wood" = -1 ∧
    (createGLTexture (some ⟨2, 2, 3⟩) "Wood" (sceneInit true)).1 = true ∧
    findTextureID (createGLTexture (some ⟨2, 2, 3⟩) "Wood" (sceneInit true)).2.1 "Wood" =
      (sceneInit true).glNextID ∧
    findTextureID
      { textures := [⟨"Metal", 4⟩, ⟨"Wood", 7⟩, ⟨"Wood", 9⟩], materials := [],
        shaderPresent := true, glNextID := 10 } "Wood" = 7 ∧
    findTextureSlot
      { textures := [⟨"Metal", 4⟩, ⟨"Wood", 7⟩, ⟨"Wood", 9⟩], materials := [],
        shaderPresent := true, glNextID := 10 } "Wood" = 1 := by
  have h := texture_lookup_roundtrip (sceneInit true)
    { textures := [⟨"Metal", 4⟩, ⟨"Wood", 7⟩, ⟨"Wood", 9⟩], materials := [],
      shaderPresent := true, glNextID := 10 }
    "Wood" ⟨2, 2, 3⟩ [⟨"Metal", 4⟩] [⟨"Wood", 9⟩] 7
    (by decide) (by decide) (by decide) (by decide)
  exact ⟨h.1, h.2.2.1, h.2.2.2.1, h.2.2.2.2.2.1, by simpa using h.2.2.2.2.2.2⟩

/-- C1: with a non-null shader manager, `SetTransformations` pushes exactly
the matrix `translation * rotationX * rotationY * rotationZ * scale` under
the uniform name `"model"`, and that matrix acts on every homogeneous column
vector as scale first, then the Z-, Y- and X-axis rotations of the
right-to-left product order, then translation. -/
theorem setTransformations_composes (st : SMState) (scaleXYZ : Vec3)
    (cx sx cy sy cz sz : ℚ) (positionXYZ : Vec3)
    (h : st.shaderPresent = true) :
    setTransformations st scaleXYZ cx sx cy sy cz sz positionXYZ =
      [Event.uniform "model" (UniformValue.mat4Val
        (modelMatrix scaleXYZ cx sx cy sy cz sz positionXYZ))] ∧
    ∀ v : Vec4,
      mat4MulVec (modelMatrix scaleXYZ cx sx cy sy cz sz positionXYZ) v =
        translateApp positionXYZ (rotXApp cx sx (rotYApp cy sy (rotZApp cz sz
          (scaleApp scaleXYZ v)))) := by
  constructor
  · simp [setTransformations, h]
  · intro v
    simp only [modelMatrix, mat4MulVec_mul, glmScale_apply, glmRotateZ_apply,
      glmRotateY_apply, glmRotateX_apply, glmTranslate_apply]

/-- Witness for C1 at a concrete state and concrete transform parameters
(scale (2,1,1), X-rotation with cosine 0 and sine 1, identity Y and Z
rotations, translation (1,0,0), applied to the vector (1,2,3,1)). -/
theorem setTransformations_composes_witness :
    (sceneInit true).shaderPresent = true ∧
    mat4MulVec (modelMatrix ⟨2, 1, 1⟩ 0 1 1 0 1 0 ⟨1, 0, 0⟩) ⟨1, 2, 3, 1⟩ =
      translateApp ⟨1, 0, 0⟩ (rotXApp 0 1 (rotYApp 1 0 (rotZApp 1 0
        (scaleApp ⟨2, 1, 1⟩ ⟨1, 2, 3, 1⟩)))) :=
  ⟨rfl, (setTransformations_composes (sceneInit true) ⟨2, 1, 1⟩ 0 1 1 0 1 0
    ⟨1, 0, 0⟩ rfl).2 ⟨1, 2, 3, 1⟩⟩

theorem runGL_bindAux_preserve :
    ∀ (l : List TextureEntry) (k : ℕ) (g : GLTextureUnits) (u : ℕ), u < k →
      (runGL g (bindGLTexturesAux k l)).bound u = g.bound u
  | [], _, _, _, _ => rfl
  | e :: rest, k, g, u, h => by
    have step : runGL g (bindGLTexturesAux k (e :: rest)) =
        runGL (applyGL (applyGL g (Event.glActiveTexture k)) (Event.glBindTexture e.ID))
          (bindGLTexturesAux (k + 1) rest) := rfl
    rw [step, runGL_bindAux_preserve rest (k + 1) _ u (Nat.lt_succ_of_lt h)]
    simp [applyGL, Nat.ne_of_lt h]

theorem runGL_bindAux_get :
    ∀ (l : List TextureEntry) (k : ℕ) (g : GLTextureUnits) (i : ℕ) (h : i < l.length),
      (runGL g (bindGLTexturesAux k l)).bound (k + i) = some (l.get ⟨i, h⟩).ID
  | [], _, _, i, h => absurd h (Nat.not_lt_zero i)
  | e :: rest, k, g, 0, _ => by
    have step : runGL g (bindGLTexturesAux k (e :: rest)) =
        runGL (applyGL (applyGL g (Event.glActiveTexture k)) (Event.glBindTexture e.ID))
          (bindGLTexturesAux (k + 1) rest) := rfl
    rw [step]
    simp only [Nat.add_zero]
    rw [runGL_bindAux_preserve rest (k + 1) _ k (Nat.lt_succ_self k)]
    simp [applyGL]
  | e :: rest, k, g, i + 1, h => by
    have h' : i < rest.length := Nat.lt_of_succ_lt_succ h
    have step : runGL g (bindGLTexturesAux k (e :: rest)) =
        runGL (applyGL (applyGL g (Event.glActiveTexture k)) (Event.glBindTexture e.ID))
          (bindGLTexturesAux (k + 1) rest) := rfl
    have harith : k + (i + 1) = (k + 1) + i := by omega
    rw [step, harith, runGL_bindAux_get rest (k + 1) _ i h']
    rfl

/-- C7: running the GL-call trace emitted by `BindGLTextures` through the
texture-unit semantics leaves texture unit `i` bound to the handle of the
`i`-th registered texture, for every `i` below the number of registered
textures, from any starting unit state. -/
theorem bindGLTextures_binds_units (st : SMState) (g0 : GLTextureUnits) (i : ℕ)
    (h : i < st.textures.length) :
    (runGL g0 (bindGLTextures st)).bound i = some (st.textures.get ⟨i, h⟩).ID := by
  have hmain := runGL_bindAux_get st.textures 0 g0 i h
  rw [Nat.zero_add] at hmain
  exact hmain

/-- Witness for C7: two registered textures, checking unit 1. -/
theorem bindGLTextures_binds_units_witness :
    1 < twoTexState.textures.length ∧
    (runGL glInit (bindGLTextures twoTexState)).bound 1 = some 8 :=
  ⟨by decide, bindGLTextures_binds_units twoTexState glInit 1 (by decide)⟩

/-- C8: in a sequence of three loads where the second is undecodable or has
an unsupported channel count, the second call returns false and registers
nothing, while the first and third succeed and their (fresh, distinct) tags
afterwards resolve to exactly the handles allocated for them and to
consecutive registration slots. -/
theorem failed_load_isolated (st0 : SMState) (d2 : Option ImageData)
    (img1 img3 : ImageData) (t1 t2 t3 : String)
    (h1 : img1.colorChannels = 3 ∨ img1.colorChannels = 4)
    (h3 : img3.colorChannels = 3 ∨ img3.colorChannels = 4)
    (h2 : d2 = none ∨ ∀ img2, d2 = some img2 →
      img2.colorChannels ≠ 3 ∧ img2.colorChannels ≠ 4)
    (hf1 : ∀ e ∈ st0.textures, e.tag ≠ t1)
    (hf3 : ∀ e ∈ st0.textures, e.tag ≠ t3)
    (h13 : t1 ≠ t3) :
    (createGLTexture (some img1) t1 st0).1 = true ∧
    (createGLTexture d2 t2 (createGLTexture (some img1) t1 st0).2.1).1 = false ∧
    (createGLTexture (some img3) t3
      (createGLTexture d2 t2 (createGLTexture (some img1) t1 st0).2.1).2.1).1 = true ∧
    findTextureID
      (createGLTexture (some img3) t3
        (createGLTexture d2 t2 (createGLTexture (some img1) t1 st0).2.1).2.1).2.1 t1 =
      st0.glNextID ∧
    findTextureID
      (createGLTexture (some img3) t3
        (createGLTexture d2 t2 (createGLTexture (some img1) t1 st0).2.1).2.1).2.1 t3 =
      (createGLTexture d2 t2 (createGLTexture (some img1) t1 st0).2.1).2.1.glNextID ∧
    findTextureSlot
      (createGLTexture (some img3) t3
        (createGLTexture d2 t2 (createGLTexture (some img1) t1 st0).2.1).2.1).2.1 t1 =
      (st0.textures.length : Int) ∧
    findTextureSlot
      (createGLTexture (some img3) t3
        (createGLTexture d2 t2 (createGLTexture (some img1) t1 st0).2.1).2.1).2.1 t3 =
      (st0.textures.length + 1 : Int) := by
  obtain ⟨hb1, ht1⟩ := createGLTexture_success_spec img1 t1 st0 h1
  obtain ⟨hb2, ht2⟩ :=
    createGLTexture_fail_spec d2 t2 (createGLTexture (some img1) t1 st0).2.1 h2
  obtain ⟨hb3, ht3⟩ := createGLTexture_success_spec img3 t3
    (createGLTexture d2 t2 (createGLTexture (some img1) t1 st0).2.1).2.1 h3
  rw [ht2, ht1] at ht3
  have hpre1 : ∀ e ∈ st0.textures ++ [(⟨t1, st0.glNextID⟩ : TextureEntry)], e.tag ≠ t3 := by
    intro e he
    rcases List.mem_append.1 he with he | he
    · exact hf3 e he
    · rcases List.mem_singleton.1 he with rfl
      exact h13
  refine ⟨hb1, hb2, hb3, ?_, ?_, ?_, ?_⟩
  · rw [findTextureID, ht3, List.append_assoc,
      findTextureIDAux_skip t1 st0.textures _ hf1]
    simp [findTextureIDAux, h13]
  · rw [findTextureID, ht3, findTextureIDAux_skip t3 _ _ hpre1, findTextureIDAux_hit]
  · rw [findTextureSlot, ht3, List.append_assoc,
      findTextureSlotAux_skip t1 st0.textures _ 0 hf1]
    simp [findTextureSlotAux]
  · rw [findTextureSlot, ht3, findTextureSlotAux_skip t3 _ _ 0 hpre1,
      findTextureSlotAux_hit]
    simp

/-- Witness for C8: empty registry, second file undecodable. -/
theorem failed_load_isolated_witness :
    (createGLTexture (some ⟨2, 2, 3⟩) "Wood" (sceneInit true)).1 = true ∧
    (createGLTexture none "Metal"
      (createGLTexture (some ⟨2, 2, 3⟩) "Wood" (sceneInit true)).2.1).1 = false ∧
    (createGLTexture (some ⟨2, 2, 4⟩) "White"
      (createGLTexture none "Metal"
        (createGLTexture (some ⟨2, 2, 3⟩) "Wood" (sceneInit true)).2.1).2.1).1 = true ∧
    findTextureID
      (createGLTexture (some ⟨2, 2, 4⟩) "White"
        (createGLTexture none "Metal"
          (createGLTexture (some ⟨2, 2, 3⟩) "Wood" (sceneInit true)).2.1).2.1).2.1
      "Wood" = (sceneInit true).glNextID := by
  have h := failed_load_isolated (sceneInit true) none ⟨2, 2, 3⟩ ⟨2, 2, 4⟩
    "Wood" "Metal" "White" (by decide) (by decide) (Or.inl rfl)
    (by decide) (by decide) (by decide)
  exact ⟨h.1, h.2.1, h.2.2.1, h.2.2.2.1⟩

/-- C9: with a non-null shader manager, `SetShaderTexture` on an unresolved
tag enables texture sampling and pushes the miss sentinel `-1` as the sampler
uniform, and a subsequent `SetShaderTexture` on a resolved tag (first match
after a non-matching prefix) still pushes that tag's correct slot index: the
registry is untouched by the miss, so no corruption carries over. -/
theorem setShaderTexture_miss_then_hit (st : SMState) (missTag hitTag : String)
    (l1 l2 : List TextureEntry) (id : Int)
    (hsh : st.shaderPresent = true)
    (hmiss : ∀ e ∈ st.textures, e.tag ≠ missTag)
    (hdecomp : st.textures = l1 ++ ⟨hitTag, id⟩ :: l2)
    (hfirst : ∀ e ∈ l1, e.tag ≠ hitTag) :
    setShaderTexture st missTag =
      [Event.uniform "bUseTexture" (UniformValue.intVal 1),
       Event.uniform "objectTexture" (UniformValue.sampler2DVal (-1))] ∧
    setShaderTexture st hitTag =
      [Event.uniform "bUseTexture" (UniformValue.intVal 1),
       Event.uniform "objectTexture" (UniformValue.sampler2DVal (l1.length : Int))] := by
  constructor
  · rw [setShaderTexture, if_pos hsh, findTextureSlot,
      findTextureSlotAux_miss missTag st.textures 0 hmiss]
  · rw [setShaderTexture, if_pos hsh, findTextureSlot, hdecomp,
      findTextureSlotAux_skip hitTag l1 _ 0 hfirst, findTextureSlotAux_hit]
    simp

/-- Witness for C9: a one-entry registry, missing tag `"Nope"`, then the
registered tag `"Wood"` at slot 0. -/
theorem setShaderTexture_miss_then_hit_witness :
    oneTexState.shaderPresent = true ∧
    setShaderTexture oneTexState "Nope" =
      [Event.uniform "bUseTexture" (UniformValue.intVal 1),
       Event.uniform "objectTexture" (UniformValue.sampler2DVal (-1))] ∧
    setShaderTexture oneTexState "Wood" =
      [Event.uniform "bUseTexture" (UniformValue.intVal 1),
       Event.uniform "objectTexture" (UniformValue.sampler2DVal 0)] := by
  have h := setShaderTexture_miss_then_hit oneTexState "Nope" "Wood"
    [] [] 7 rfl (by decide) rfl (by decide)
  exact ⟨rfl, h.1, by simpa using h.2⟩

/-- C10: when the SceneManager was constructed with a null shader-manager
pointer, `SetTransformations`, `SetShaderColor`, `SetShaderTexture` and
`SetTextureUVScale` push no uniforms at all for any input: each guards with
an explicit null check before touching the uniform interface. -/
theorem null_shader_setters_noop (st : SMState) (h : st.shaderPresent = false)
    (scaleXYZ : Vec3) (cx sx cy sy cz sz : ℚ) (positionXYZ : Vec3)
    (r g b a : ℚ) (tag : String) (u v : ℚ) :
    setTransformations st scaleXYZ cx sx cy sy cz sz positionXYZ = [] ∧
    setShaderColor st r g b a = [] ∧
    setShaderTexture st tag = [] ∧
    setTextureUVScale st u v = [] := by
  refine ⟨?_, ?_, ?_, ?_⟩ <;>
    simp [setTransformations, setShaderColor, setShaderTexture,
      setTextureUVScale, h]

/-- Witness for C10 at a concrete null-shader state and concrete inputs. -/
theorem null_shader_setters_noop_witness :
    (sceneInit false).shaderPresent = false ∧
    setShaderColor (sceneInit false) 1 1 1 1 = [] ∧
    setShaderTexture (sceneInit false) "Wood" = [] ∧
    setTextureUVScale (sceneInit false) 2 2 = [] := by
  have h := null_shader_setters_noop (sceneInit false) rfl
    ⟨1, 1, 1⟩ 1 0 1 0 1 0 ⟨0, 0, 0⟩ 1 1 1 1 "Wood" 2 2
  exact ⟨rfl, h.2.1, h.2.2.1, h.2.2.2⟩

/-- C2 counterexample: on the material table actually built by
`DefineObjectMaterials` (Paper, Wood, Plastic, Metal), looking up the absent
tag `"Glass"` makes `FindMaterial` return `true` — not the claimed
not-found `false` — while leaving the caller's out-parameter completely
untouched, because line 249 executes `return(true)` regardless of whether
the scan matched. -/
theorem findMaterial_absent_tag_returns_true (m : ObjectMaterial) :
    (findMaterial materialState "Glass" m).1 = true ∧
    (findMaterial materialState "Glass" m).2 = m :=
  ⟨rfl, rfl⟩

/-- C3 counterexample: with the table built by `DefineObjectMaterials` and
the undefined tag `"Glass"`, `SetShaderMaterial` is not a no-op: because
`FindMaterial` wrongly reports success, it pushes all five material uniforms
read from its never-initialised local `OBJECT_MATERIAL` variable `m`. -/
theorem setShaderMaterial_absent_tag_not_noop (m : ObjectMaterial) :
    setShaderMaterial materialState "Glass" m =
      [Event.uniform "material.ambientColor" (UniformValue.vec3Val m.ambientColor),
       Event.uniform "material.ambientStrength" (UniformValue.floatVal m.ambientStrength),
       Event.uniform "material.diffuseColor" (UniformValue.vec3Val m.diffuseColor),
       Event.uniform "material.specularColor" (UniformValue.vec3Val m.specularColor),
       Event.uniform "material.shininess" (UniformValue.floatVal m.shininess)] ∧
    setShaderMaterial materialState "Glass" m ≠ [] := by
  refine ⟨rfl, ?_⟩
  have hlen : (setShaderMaterial materialState "Glass" m).length = 5 := rfl
  intro hnil
  rw [hnil] at hlen
  simp at hlen

/-- C4 counterexample: with all 16 slots of the fixed texture array already
occupied, a further `CreateGLTexture` of a decodable 3-channel image is not
rejected: it returns `true` and performs the registration write at raw index
16, one past the last valid slot of the 16-entry array — the unguarded
out-of-bounds write the claim says cannot happen. -/
theorem createGLTexture_overflows_fixed_capacity :
    texCapacity = 16 ∧
    fullState.textures.length = texCapacity ∧
    (createGLTexture (some ⟨2, 2, 3⟩) "y" fullState).1 = true ∧
    Event.slotWrite 16 ⟨"y", 17⟩ ∈ (createGLTexture (some ⟨2, 2, 3⟩) "y" fullState).2.2 ∧
    ¬ 16 < texCapacity := by
  refine ⟨rfl, by decide, rfl, ?_, by decide⟩
  simp [createGLTexture, fullState]

/-- C5 counterexample: on a state with one registered texture (handle 7),
`DestroyGLTextures` emits a `glGenTextures` call — allocating a fresh handle
(50) and overwriting the stored one — and emits no `glDeleteTextures` call
for any handle, so the registered handle 7 is never released. -/
theorem destroyGLTextures_regenerates_instead_of_deleting :
    (destroyGLTextures oneTexState).2 = [Event.glGenTextures 50] ∧
    (∀ id, Event.glDeleteTextures id ∉ (destroyGLTextures oneTexState).2) ∧
    (destroyGLTextures oneTexState).1.textures = [⟨"Wood", 50⟩] := by
  refine ⟨rfl, ?_, rfl⟩
  intro id
  simp [destroyGLTextures, destroyGLTexturesAux, oneTexState]

end SceneMgr
